import Mathlib

/-!
Verification of `src/server/websocket-client.py`, a command-line WebSocket
translation client.  The script parses arguments (`-b or --batch-size`,
`-p or --port`, optional positional `file`), prints `PORT: <port>`, opens a
WebSocket connection, then either

* file mode: replaces every newline in the file content by the two-character
  sequence backslash-n, builds the payload
  `{ "id": 1, "text": "<content>"}`, prints it and sends it once, or
* stream mode: for each stdin line sends
  `{ "id": <count>, "text": "<line.strip()>"}` with `count` incremented
  from 1,

and finally performs `count` blocking receives, printing each received frame,
and closes the connection.

The shallow embedding below models one process invocation as a function from
the parsed arguments, the stdin lines and an environment (whether the
connection succeeds, and the frames the server will deliver) to the trace of
observable events together with the process exit code (`none` means the
process blocks forever on a receive that is never answered).
-/

namespace WebsocketClient

/-- One observable event of the client process: a line printed to standard
output, a WebSocket frame sent, a WebSocket frame received, or the final
close of the connection. -/
inductive Event where
  | print (s : String)
  | send (s : String)
  | recv (s : String)
  | close
  deriving DecidableEq

/-- Parsed command-line arguments: `-b or --batch-size` (default 1),
`-p or --port` (default 8080) and the optional positional `file` argument,
modelled here by the content of the already-opened file. -/
structure Args where
  batchSize : Int
  port : Int
  file : Option String
  deriving DecidableEq

/-- Environment of one invocation: whether `create_connection` succeeds, and
the frames the server delivers to successive `ws.recv()` calls. -/
structure Env where
  connectOk : Bool
  responses : List String
  deriving DecidableEq

/-- Result of one invocation: the trace of observable events and the process
exit code; `none` means the process never exits (it blocks on a receive for
which the server delivers no frame). -/
structure RunResult where
  events : List Event
  exit : Option Nat
  deriving DecidableEq

/-- Embedding of Python `str.strip()` with no arguments: remove whitespace
characters from both ends of the string. -/
def pyStrip (s : String) : String :=
  String.mk (((s.data.dropWhile Char.isWhitespace).reverse.dropWhile
    Char.isWhitespace).reverse)

/-- Embedding of `regex.sub(r'\n', r'\\n', ...)` on the character list:
replace every literal newline character by the two characters
backslash and `n`. -/
def escapeNewlinesList : List Char → List Char
  | [] => []
  | c :: cs =>
      if c = '\n' then '\\' :: 'n' :: escapeNewlinesList cs
      else c :: escapeNewlinesList cs

/-- Embedding of `regex.sub(r'\n', r'\\n', text)` on strings. -/
def escapeNewlines (s : String) : String :=
  String.mk (escapeNewlinesList s.data)

/-- Embedding of the payload format string
`'\x7b "id": %d, "text": "%s"\x7d' % (count, text)` used by both branches of
the script. -/
def renderPayload (n : Nat) (text : String) : String :=
  "\x7b \"id\": " ++ toString n ++ ", \"text\": \"" ++ text ++ "\"\x7d"

/-- The request envelope of the spec data model: a 1-based sequence number
and the text of one input unit. -/
structure Envelope where
  id : Nat
  text : String
  deriving DecidableEq

/-- Wire form of an envelope, via the script's format string. -/
def renderEnvelope (e : Envelope) : String :=
  renderPayload e.id e.text

/-- Embedding of the stream-mode send loop
`for line in sys.stdin: count += 1; ws.send(...)` , described by the
envelopes it sends: the accumulator is the value of `count` before the loop
body runs. -/
def streamLoop : Nat → List String → List Envelope
  | _, [] => []
  | count, line :: rest =>
      ⟨count + 1, pyStrip line⟩ :: streamLoop (count + 1) rest

/-- The stream-mode send loop as a list of send events together with the
final value of `count`. -/
def streamSendLoop : Nat → List String → List Event × Nat
  | count, [] => ([], count)
  | count, line :: rest =>
      let payload := renderPayload (count + 1) (pyStrip line)
      let r := streamSendLoop (count + 1) rest
      (Event.send payload :: r.1, r.2)

/-- Embedding of the receive loop
`while count: result = ws.recv(); print(result); count -= 1`: each
successful `ws.recv()` is followed by a `print` of the received frame.  If
the server delivers no further frame the loop blocks and the trace stops. -/
def recvLoop : Nat → List String → List Event
  | 0, _ => []
  | _ + 1, [] => []
  | n + 1, r :: rs => Event.recv r :: Event.print r :: recvLoop n rs

/-- The `PORT: <port>` line echoed by `print("PORT: %d" % args.port)`. -/
def portLine (port : Int) : String :=
  "PORT: " ++ toString port

/-- Completion of a run after the send phase: run the receive loop for the
outstanding `count`, then close the connection and exit 0 — unless the
server delivers fewer frames than `count`, in which case the process blocks
forever inside `ws.recv()`. -/
def finish (headerAndSends : List Event) (count : Nat) (env : Env) :
    RunResult :=
  if count ≤ env.responses.length then
    ⟨headerAndSends ++ recvLoop count env.responses ++ [Event.close], some 0⟩
  else
    ⟨headerAndSends ++ recvLoop count env.responses, none⟩

/-- One invocation of the client script.  Prints the port line; if the
connection cannot be established the uncaught exception terminates the
process with exit code 1.  Otherwise file mode sends the single escaped
payload (printing it first), stream mode sends one frame per stdin line, and
both fall through to the receive loop and `ws.close()`. -/
def run (args : Args) (stdinLines : List String) (env : Env) : RunResult :=
  let header := Event.print (portLine args.port)
  if env.connectOk then
    match args.file with
    | some content =>
        let payload := renderPayload 1 (escapeNewlines content)
        finish [header, Event.print payload, Event.send payload] 1 env
    | none =>
        let r := streamSendLoop 0 stdinLines
        finish (header :: r.1) r.2 env
  else
    ⟨[header], some 1⟩

/-- The frames sent over the connection during a trace, in order. -/
def sentFrames (evs : List Event) : List String :=
  evs.filterMap fun e =>
    match e with
    | Event.send s => some s
    | _ => none

/-- The frames received from the connection during a trace, in order. -/
def recvFrames (evs : List Event) : List String :=
  evs.filterMap fun e =>
    match e with
    | Event.recv s => some s
    | _ => none

/-- The lines printed to standard output during a trace, in order. -/
def printedLines (evs : List Event) : List String :=
  evs.filterMap fun e =>
    match e with
    | Event.print s => some s
    | _ => none

/-- Number of receive calls performed in a trace. -/
def recvCallCount (evs : List Event) : Nat :=
  (recvFrames evs).length

/-- Decides whether some event is a send. -/
def isSendEvent : Event → Bool
  | Event.send _ => true
  | _ => false

/-- Decides whether some event is a receive. -/
def isRecvEvent : Event → Bool
  | Event.recv _ => true
  | _ => false

/-- Checks that every send in the trace happens before every receive: after
the first receive no send occurs. -/
def sendsBeforeRecvs : List Event → Bool
  | [] => true
  | e :: rest =>
      if isRecvEvent e then rest.all fun x => !(isSendEvent x)
      else sendsBeforeRecvs rest

/-- A mock echo server for the round-trip property: it answers the client's
stream-mode envelopes by returning each received frame's `text` field
unchanged, one response frame per request, in send order. -/
def echoServer (stdinLines : List String) : List String :=
  (streamLoop 0 stdinLines).map Envelope.text

/-! Basic laws of the trace projections. -/

@[simp] theorem sentFrames_nil : sentFrames [] = [] := rfl

@[simp] theorem sentFrames_cons_print (s : String) (l : List Event) :
    sentFrames (Event.print s :: l) = sentFrames l := rfl

@[simp] theorem sentFrames_cons_send (s : String) (l : List Event) :
    sentFrames (Event.send s :: l) = s :: sentFrames l := rfl

@[simp] theorem sentFrames_cons_recv (s : String) (l : List Event) :
    sentFrames (Event.recv s :: l) = sentFrames l := rfl

@[simp] theorem sentFrames_cons_close (l : List Event) :
    sentFrames (Event.close :: l) = sentFrames l := rfl

@[simp] theorem sentFrames_append (l₁ l₂ : List Event) :
    sentFrames (l₁ ++ l₂) = sentFrames l₁ ++ sentFrames l₂ :=
  List.filterMap_append l₁ l₂ _

@[simp] theorem recvFrames_nil : recvFrames [] = [] := rfl

@[simp] theorem recvFrames_cons_print (s : String) (l : List Event) :
    recvFrames (Event.print s :: l) = recvFrames l := rfl

@[simp] theorem recvFrames_cons_send (s : String) (l : List Event) :
    recvFrames (Event.send s :: l) = recvFrames l := rfl

@[simp] theorem recvFrames_cons_recv (s : String) (l : List Event) :
    recvFrames (Event.recv s :: l) = s :: recvFrames l := rfl

@[simp] theorem recvFrames_cons_close (l : List Event) :
    recvFrames (Event.close :: l) = recvFrames l := rfl

@[simp] theorem recvFrames_append (l₁ l₂ : List Event) :
    recvFrames (l₁ ++ l₂) = recvFrames l₁ ++ recvFrames l₂ :=
  List.filterMap_append l₁ l₂ _

@[simp] theorem printedLines_nil : printedLines [] = [] := rfl

@[simp] theorem printedLines_cons_print (s : String) (l : List Event) :
    printedLines (Event.print s :: l) = s :: printedLines l := rfl

@[simp] theorem printedLines_cons_send (s : String) (l : List Event) :
    printedLines (Event.send s :: l) = printedLines l := rfl

@[simp] theorem printedLines_cons_recv (s : String) (l : List Event) :
    printedLines (Event.recv s :: l) = printedLines l := rfl

@[simp] theorem printedLines_cons_close (l : List Event) :
    printedLines (Event.close :: l) = printedLines l := rfl

@[simp] theorem printedLines_append (l₁ l₂ : List Event) :
    printedLines (l₁ ++ l₂) = printedLines l₁ ++ printedLines l₂ :=
  List.filterMap_append l₁ l₂ _

/-! Characterization of the two loops. -/

/-- The event form of the stream-mode send loop matches its envelope form,
and the final `count` is the initial one plus the number of lines. -/
theorem streamSendLoop_eq (lines : List String) (c : Nat) :
    streamSendLoop c lines =
      ((streamLoop c lines).map fun e => Event.send (renderEnvelope e),
       c + lines.length) := by
  induction lines generalizing c with
  | nil => simp [streamSendLoop, streamLoop]
  | cons line rest ih =>
      simp [streamSendLoop, streamLoop, ih, renderEnvelope]
      omega

@[simp] theorem streamLoop_length (lines : List String) (c : Nat) :
    (streamLoop c lines).length = lines.length := by
  induction lines generalizing c with
  | nil => rfl
  | cons line rest ih => simp [streamLoop, ih]

/-- The ids assigned by the stream loop are the contiguous integers
`c + 1, c + 2, …, c + lines.length`. -/
theorem streamLoop_map_id (lines : List String) (c : Nat) :
    (streamLoop c lines).map Envelope.id = List.range' (c + 1) lines.length := by
  induction lines generalizing c with
  | nil => rfl
  | cons line rest ih => simp [streamLoop, List.range'_succ, ih]

/-- The texts assigned by the stream loop are the stripped lines. -/
theorem streamLoop_map_text (lines : List String) (c : Nat) :
    (streamLoop c lines).map Envelope.text = lines.map pyStrip := by
  induction lines generalizing c with
  | nil => rfl
  | cons line rest ih => simp [streamLoop, ih]

/-- Element `pre.length` of the stream loop over `pre ++ line :: post` is the
envelope numbered `c + pre.length + 1` carrying the stripped `line`. -/
theorem streamLoop_getElem (pre post : List String) (line : String) (c : Nat) :
    (streamLoop c (pre ++ line :: post))[pre.length]?
      = some ⟨c + pre.length + 1, pyStrip line⟩ := by
  induction pre generalizing c with
  | nil => simp [streamLoop]
  | cons p pre ih =>
      simp only [List.cons_append, streamLoop, List.length_cons,
        List.getElem?_cons_succ, List.append_eq]
      rw [ih]
      simp [Nat.add_comm, Nat.add_assoc, Nat.add_left_comm]

@[simp] theorem sentFrames_recvLoop (n : Nat) (rs : List String) :
    sentFrames (recvLoop n rs) = [] := by
  induction n generalizing rs with
  | zero => rfl
  | succ n ih => cases rs <;> simp [recvLoop, ih]

@[simp] theorem recvFrames_recvLoop (n : Nat) (rs : List String) :
    recvFrames (recvLoop n rs) = rs.take n := by
  induction n generalizing rs with
  | zero => simp [recvLoop]
  | succ n ih => cases rs <;> simp [recvLoop, ih]

@[simp] theorem printedLines_recvLoop (n : Nat) (rs : List String) :
    printedLines (recvLoop n rs) = rs.take n := by
  induction n generalizing rs with
  | zero => simp [recvLoop]
  | succ n ih => cases rs <;> simp [recvLoop, ih]

/-- Sends contain no print event, so a mapped send block prints nothing. -/
@[simp] theorem printedLines_map_send (l : List Envelope) :
    printedLines (l.map fun e => Event.send (renderEnvelope e)) = [] := by
  induction l with
  | nil => rfl
  | cons e l ih => simp [ih]

@[simp] theorem recvFrames_map_send (l : List Envelope) :
    recvFrames (l.map fun e => Event.send (renderEnvelope e)) = [] := by
  induction l with
  | nil => rfl
  | cons e l ih => simp [ih]

@[simp] theorem sentFrames_map_send (l : List Envelope) :
    sentFrames (l.map fun e => Event.send (renderEnvelope e))
      = l.map renderEnvelope := by
  induction l with
  | nil => rfl
  | cons e l ih => simp [ih]

/-! Characterization of a whole run. -/

/-- A stream-mode run with a live connection is the port line, one send per
line, and the completion phase for `lines.length` outstanding responses. -/
theorem run_stream (b port : Int) (lines rs : List String) :
    run ⟨b, port, none⟩ lines ⟨true, rs⟩ =
      finish (Event.print (portLine port) ::
          (streamLoop 0 lines).map fun e => Event.send (renderEnvelope e))
        lines.length ⟨true, rs⟩ := by
  simp [run, streamSendLoop_eq]

/-- A file-mode run with a live connection is the port line, the printed and
then sent payload, and the completion phase for one outstanding response. -/
theorem run_file (b port : Int) (content : String) (lines rs : List String) :
    run ⟨b, port, some content⟩ lines ⟨true, rs⟩ =
      finish [Event.print (portLine port),
          Event.print (renderPayload 1 (escapeNewlines content)),
          Event.send (renderPayload 1 (escapeNewlines content))]
        1 ⟨true, rs⟩ := by
  simp [run]

@[simp] theorem sentFrames_finish (hs : List Event) (n : Nat) (env : Env) :
    sentFrames (finish hs n env).events = sentFrames hs := by
  unfold finish
  split <;> simp

@[simp] theorem recvFrames_finish (hs : List Event) (n : Nat) (env : Env) :
    recvFrames (finish hs n env).events
      = recvFrames hs ++ env.responses.take n := by
  unfold finish
  split <;> simp

@[simp] theorem printedLines_finish (hs : List Event) (n : Nat) (env : Env) :
    printedLines (finish hs n env).events
      = printedLines hs ++ env.responses.take n := by
  unfold finish
  split <;> simp

@[simp] theorem finish_exit (hs : List Event) (n : Nat) (env : Env) :
    (finish hs n env).exit
      = if n ≤ env.responses.length then some 0 else none := by
  unfold finish
  split <;> simp_all

/-! Every run sends all its frames before its first receive. -/

theorem all_not_send_recvLoop (n : Nat) (rs : List String) :
    ((recvLoop n rs).all fun x => !(isSendEvent x)) = true := by
  induction n generalizing rs with
  | zero => rfl
  | succ n ih =>
      cases rs with
      | nil => rfl
      | cons r rs =>
          simp only [recvLoop, List.all_cons, Bool.and_eq_true]
          exact ⟨rfl, rfl, ih rs⟩

theorem sendsBeforeRecvs_of_all (l : List Event)
    (h : (l.all fun x => !(isSendEvent x)) = true) :
    sendsBeforeRecvs l = true := by
  induction l with
  | nil => rfl
  | cons e rest ih =>
      simp only [List.all_cons, Bool.and_eq_true] at h
      unfold sendsBeforeRecvs
      split
      · exact h.2
      · exact ih h.2

theorem sendsBeforeRecvs_append (l₁ l₂ : List Event)
    (h₁ : (l₁.all fun x => !(isRecvEvent x)) = true)
    (h₂ : (l₂.all fun x => !(isSendEvent x)) = true) :
    sendsBeforeRecvs (l₁ ++ l₂) = true := by
  induction l₁ with
  | nil => simpa using sendsBeforeRecvs_of_all l₂ h₂
  | cons e l ih =>
      simp only [List.all_cons, Bool.and_eq_true, Bool.not_eq_true'] at h₁
      simp only [List.cons_append]
      unfold sendsBeforeRecvs
      rw [h₁.1]
      simpa using ih h₁.2

theorem sendsBeforeRecvs_finish (hs : List Event) (n : Nat) (env : Env)
    (h : (hs.all fun x => !(isRecvEvent x)) = true) :
    sendsBeforeRecvs (finish hs n env).events = true := by
  unfold finish
  split
  · dsimp only
    rw [List.append_assoc]
    refine sendsBeforeRecvs_append _ _ h ?_
    simp only [List.all_append, Bool.and_eq_true]
    exact ⟨all_not_send_recvLoop _ _, by simp [isSendEvent]⟩
  · exact sendsBeforeRecvs_append _ _ h (all_not_send_recvLoop _ _)

/-- In every run all sends happen before the first receive: the script's
receive loop only starts after the send phase is finished. -/
theorem sendsBeforeRecvs_run (args : Args) (lines : List String) (env : Env) :
    sendsBeforeRecvs (run args lines env).events = true := by
  obtain ⟨b, port, file⟩ := args
  obtain ⟨ok, rs⟩ := env
  cases ok with
  | false => simp [run, sendsBeforeRecvs, isRecvEvent]
  | true =>
      cases file with
      | none =>
          rw [run_stream]
          refine sendsBeforeRecvs_finish _ _ _ ?_
          simp [isRecvEvent, List.all_map]
      | some content =>
          rw [run_file]
          refine sendsBeforeRecvs_finish _ _ _ ?_
          simp [isRecvEvent]

/-! Claims. -/

/-- C1: in stream mode, for every number N ≥ 0 of lines read from standard
input (with the server answering each outstanding request), the client sends
exactly N frames whose id fields are the contiguous integers 1..N assigned
in send order, and then performs exactly N receive calls. -/
theorem stream_mode_contiguous_ids (b port : Int) (lines rs : List String)
    (h : lines.length ≤ rs.length) :
    sentFrames (run ⟨b, port, none⟩ lines ⟨true, rs⟩).events
        = (streamLoop 0 lines).map renderEnvelope
    ∧ (streamLoop 0 lines).length = lines.length
    ∧ (streamLoop 0 lines).map Envelope.id = List.range' 1 lines.length
    ∧ recvCallCount (run ⟨b, port, none⟩ lines ⟨true, rs⟩).events
        = lines.length := by
  refine ⟨?_, streamLoop_length lines 0, streamLoop_map_id lines 0, ?_⟩
  · rw [run_stream, sentFrames_finish]
    simp
  · rw [run_stream]
    unfold recvCallCount
    rw [recvFrames_finish]
    simp [Nat.min_eq_left h]

/-- Witness for C1 at two concrete stdin lines and two server responses. -/
theorem stream_mode_contiguous_ids_witness :
    (["hello", "world"] : List String).length ≤
        (["x", "y"] : List String).length
    ∧ (sentFrames (run ⟨1, 8080, none⟩ ["hello", "world"]
            ⟨true, ["x", "y"]⟩).events
          = (streamLoop 0 ["hello", "world"]).map renderEnvelope
        ∧ (streamLoop 0 ["hello", "world"]).length
            = (["hello", "world"] : List String).length
        ∧ (streamLoop 0 ["hello", "world"]).map Envelope.id
            = List.range' 1 (["hello", "world"] : List String).length
        ∧ recvCallCount (run ⟨1, 8080, none⟩ ["hello", "world"]
              ⟨true, ["x", "y"]⟩).events
            = (["hello", "world"] : List String).length) :=
  ⟨by decide,
   stream_mode_contiguous_ids 1 8080 ["hello", "world"] ["x", "y"] (by decide)⟩

/-- C2 (counterexample): the script's format string is
`'\x7b "id": %d, "text": "%s"\x7d'`, so the frames carry spaces after the
opening brace, the colons and the comma; they are not the compact strings
the claim states. -/
theorem exact_frame_strings_counterexample :
    sentFrames (run ⟨1, 8080, none⟩ ["hello", "world"]
        ⟨true, ["a", "b"]⟩).events
      ≠ ["\x7b\"id\":1,\"text\":\"hello\"\x7d",
         "\x7b\"id\":2,\"text\":\"world\"\x7d"] := by
  decide

/-- C2 (amended): for stdin `["hello", "world"]` the two outbound frames are
exactly `\x7b "id": 1, "text": "hello"\x7d` and then
`\x7b "id": 2, "text": "world"\x7d`, in that order, and both sends happen
before any receive is attempted. -/
theorem hello_world_frames (b port : Int) (rs : List String) :
    sentFrames (run ⟨b, port, none⟩ ["hello", "world"] ⟨true, rs⟩).events
        = ["\x7b \"id\": 1, \"text\": \"hello\"\x7d",
           "\x7b \"id\": 2, \"text\": \"world\"\x7d"]
    ∧ sendsBeforeRecvs
        (run ⟨b, port, none⟩ ["hello", "world"] ⟨true, rs⟩).events = true := by
  refine ⟨?_, sendsBeforeRecvs_run _ _ _⟩
  rw [run_stream, sentFrames_finish]
  simp
  decide

/-- C3: in file mode, for every file content, the client sends exactly one
frame, with id 1, whose text is the file content with every literal newline
replaced by the two-character sequence backslash-n. -/
theorem file_mode_single_escaped_send (b port : Int) (content : String)
    (lines rs : List String) :
    sentFrames (run ⟨b, port, some content⟩ lines ⟨true, rs⟩).events
      = [renderPayload 1 (escapeNewlines content)] := by
  rw [run_file, sentFrames_finish]
  rfl

/-- C4 (counterexample): with the echo server, the input consisting of the
single line `" hi"` (leading space) is printed back as `"hi"` during the
receive phase — `str.strip()` removed the leading space, so the printed
sequence differs from the input line sequence. -/
theorem roundtrip_counterexample :
    (printedLines (run ⟨1, 8080, none⟩ [" hi"]
        ⟨true, echoServer [" hi"]⟩).events).drop 1 = ["hi"]
    ∧ (["hi"] : List String) ≠ [" hi"] := by
  decide

/-- C4 (amended): with the echo server answering every frame with its text
field, the lines printed by the client are the port line followed by the
input lines with leading and trailing whitespace stripped, in input order. -/
theorem roundtrip_prints_stripped_lines (b port : Int) (lines : List String) :
    printedLines (run ⟨b, port, none⟩ lines ⟨true, echoServer lines⟩).events
      = portLine port :: lines.map pyStrip := by
  rw [run_stream, printedLines_finish]
  have hlen : (echoServer lines).length = lines.length := by
    simp [echoServer]
  simp only [printedLines_cons_print, printedLines_map_send]
  rw [← hlen, List.take_length]
  simp [echoServer, streamLoop_map_text]

/-- C5 (counterexample): in stream mode the outbound payload is never
printed: the run for the single line `"hello"` sends the payload but its
trace contains no print of it. -/
theorem payload_print_counterexample :
    Event.send (renderPayload 1 "hello")
        ∈ (run ⟨1, 8080, none⟩ ["hello"] ⟨true, ["x"]⟩).events
    ∧ Event.print (renderPayload 1 "hello")
        ∉ (run ⟨1, 8080, none⟩ ["hello"] ⟨true, ["x"]⟩).events := by
  decide

/-- C5 (amended): only in file mode is the outbound payload printed to
standard output before it is sent (right after the port line).  In stream
mode outbound payloads are not printed at all: the printed output of every
stream-mode run is exactly the port line followed by the inbound frames.
Inbound frames are printed upon receipt in both modes. -/
theorem diagnostics_printing :
    (∀ (b port : Int) (content : String) (lines rs : List String),
      (run ⟨b, port, some content⟩ lines ⟨true, rs⟩).events.take 3
        = [Event.print (portLine port),
           Event.print (renderPayload 1 (escapeNewlines content)),
           Event.send (renderPayload 1 (escapeNewlines content))])
    ∧ (∀ (b port : Int) (lines rs : List String),
        printedLines (run ⟨b, port, none⟩ lines ⟨true, rs⟩).events
          = portLine port :: rs.take lines.length)
    ∧ (∀ (n : Nat) (rs : List String),
        printedLines (recvLoop n rs) = recvFrames (recvLoop n rs)) := by
  refine ⟨?_, ?_, ?_⟩
  · intro b port content lines rs
    rw [run_file]
    unfold finish
    split <;> simp [List.take_succ_cons, List.cons_append]
  · intro b port lines rs
    rw [run_stream, printedLines_finish]
    simp
  · intro n rs
    simp

/-- C6 (counterexample): `line.decode('utf8').strip()` strips leading
whitespace as well: the line `" hello"` is sent with text `"hello"`, not
with its leading space preserved. -/
theorem strip_leading_counterexample :
    sentFrames (run ⟨1, 8080, none⟩ [" hello"] ⟨true, ["x"]⟩).events
        = [renderPayload 1 "hello"]
    ∧ renderPayload 1 "hello" ≠ renderPayload 1 " hello" := by
  decide

/-- C6 (amended): in stream mode the text placed in each outbound envelope
is the input line with whitespace stripped from both ends (leading
whitespace is removed too, interior characters are preserved by
`pyStrip`). -/
theorem stream_text_stripped_both_ends (b port : Int) (lines rs : List String) :
    sentFrames (run ⟨b, port, none⟩ lines ⟨true, rs⟩).events
        = (streamLoop 0 lines).map renderEnvelope
    ∧ (streamLoop 0 lines).map Envelope.text = lines.map pyStrip := by
  refine ⟨?_, streamLoop_map_text lines 0⟩
  rw [run_stream, sentFrames_finish]
  simp

/-- C7: if the WebSocket connection cannot be established the process exits
with code 1 (non-zero) having printed only the port line; no send is ever
attempted. -/
theorem connect_failure_no_send (args : Args) (lines rs : List String) :
    run args lines ⟨false, rs⟩
        = ⟨[Event.print (portLine args.port)], some 1⟩
    ∧ sentFrames (run args lines ⟨false, rs⟩).events = []
    ∧ (run args lines ⟨false, rs⟩).exit ≠ some 0 := by
  refine ⟨rfl, rfl, ?_⟩
  simp [run]

/-- C8: on empty stdin in stream mode the client sends zero frames, performs
zero receive calls, and exits with code 0. -/
theorem empty_stdin_run (b port : Int) (rs : List String) :
    run ⟨b, port, none⟩ [] ⟨true, rs⟩
        = ⟨[Event.print (portLine port), Event.close], some 0⟩
    ∧ sentFrames (run ⟨b, port, none⟩ [] ⟨true, rs⟩).events = []
    ∧ recvCallCount (run ⟨b, port, none⟩ [] ⟨true, rs⟩).events = 0 := by
  have h : run ⟨b, port, none⟩ [] ⟨true, rs⟩
      = ⟨[Event.print (portLine port), Event.close], some 0⟩ := by
    simp [run, streamSendLoop, finish, recvLoop]
  refine ⟨h, ?_, ?_⟩ <;> rw [h] <;> rfl

/-- C9: the batch-size flag is parsed but never used: two runs differing
only in the batch-size value have identical traces (frames sent, receive
calls, printed output) and identical exit codes. -/
theorem batch_size_noninterference (b b' port : Int) ( file : Option String)
    (lines : List String) (env : Env) :
    run ⟨b, port, file⟩ lines env = run ⟨b', port, file⟩ lines env := rfl

/-- C10: in stream mode a line whose stripped form is empty is not filtered
out: it is still counted, assigned the next id (one past the number of lines
before it), sent as a frame whose text field is the empty string, and it
still consumes one receive in the receive phase. -/
theorem blank_line_counted (b port : Int) (pre post rs : List String)
    (line : String) (h1 : pyStrip line = "")
    (h2 : (pre ++ line :: post).length ≤ rs.length) :
    sentFrames (run ⟨b, port, none⟩ (pre ++ line :: post)
          ⟨true, rs⟩).events
        = (streamLoop 0 (pre ++ line :: post)).map renderEnvelope
    ∧ (streamLoop 0 (pre ++ line :: post))[pre.length]?
        = some ⟨pre.length + 1, ""⟩
    ∧ recvCallCount (run ⟨b, port, none⟩ (pre ++ line :: post)
          ⟨true, rs⟩).events
        = (pre ++ line :: post).length := by
  refine ⟨?_, ?_, ?_⟩
  · rw [run_stream, sentFrames_finish]
    simp
  · rw [streamLoop_getElem pre post line 0, h1]
    simp
  · rw [run_stream]
    unfold recvCallCount
    rw [recvFrames_finish]
    simp at h2 ⊢
    omega

/-- Witness for C10: the whitespace-only line `"  "` between lines `"a"` and
`"b"` is counted, gets id 2 with empty text, and consumes a receive. -/
theorem blank_line_counted_witness :
    (pyStrip "  " = ""
      ∧ ((["a"] : List String) ++ "  " :: ["b"]).length ≤
          (["x", "y", "z"] : List String).length)
    ∧ (sentFrames (run ⟨1, 8080, none⟩ (["a"] ++ "  " :: ["b"])
            ⟨true, ["x", "y", "z"]⟩).events
          = (streamLoop 0 (["a"] ++ "  " :: ["b"])).map renderEnvelope
        ∧ (streamLoop 0 (["a"] ++ "  " :: ["b"]))[(["a"] : List String).length]?
            = some ⟨(["a"] : List String).length + 1, ""⟩
        ∧ recvCallCount (run ⟨1, 8080, none⟩ (["a"] ++ "  " :: ["b"])
              ⟨true, ["x", "y", "z"]⟩).events
            = ((["a"] : List String) ++ "  " :: ["b"]).length) :=
  ⟨⟨by decide, by decide⟩,
   blank_line_counted 1 8080 ["a"] ["b"] ["x", "y", "z"] "  "
     (by decide) (by decide)⟩

end WebsocketClient
